import Mathlib

/-!
Verification of `data_source_google_compute_usable_subnetworks.go` and the
`gkebackup_backupplan_full.tf.erb` example template from the magic-modules
repository, as a shallow embedding in Lean 4.

Go slices are modelled by `GoSlice` (a list plus an explicit nil flag, since
a Go slice distinguishes `nil` from an allocated empty slice); Go strings by
`String`; fallible calls by `Except String`; the Terraform SDK's
`schema.ResourceData` by an explicit record of the attributes this data
source touches plus an opaque remainder.
-/

/-- A Go slice: `null = true` models the nil slice, `null = false` an
allocated slice (for example the result of `make([]T, 0)`).  `elems` are the
elements; a nil slice has no elements. -/
structure GoSlice (α : Type) where
  null : Bool
  elems : List α
  deriving Repr, DecidableEq

/-- Go's `make([]T, 0)`: an allocated, empty, non-nil slice. -/
def GoSlice.make0 {α : Type} : GoSlice α := ⟨false, []⟩

/-- Go's `append(s, x)`: appending to any slice (nil included) yields a non-nil
slice holding the old elements plus `x`. -/
def GoSlice.push {α : Type} (s : GoSlice α) (x : α) : GoSlice α :=
  ⟨false, s.elems ++ [x]⟩

/-- The struct `compute.UsableSubnetworkSecondaryRange`: the two fields the data source
reads (`RangeName`, `IpCidrRange`). -/
structure UsableSubnetworkSecondaryRange where
  RangeName : String
  IpCidrRange : String
  deriving Repr, DecidableEq

/-- The struct `compute.UsableSubnetwork`: the ten fields the data source reads.  The
fields named `ExternalIpv6Prefix` / `InternalIpv6Prefix` in the Go struct are
spelled `ExternalIpv6Pfx` / `InternalIpv6Pfx` here. -/
structure UsableSubnetwork where
  Subnetwork : String
  Network : String
  IpCidrRange : String
  SecondaryIpRanges : List UsableSubnetworkSecondaryRange
  StackType : String
  Ipv6AccessType : String
  Purpose : String
  Role : String
  ExternalIpv6Pfx : String
  InternalIpv6Pfx : String
  deriving Repr, DecidableEq

/-- A value stored in a Terraform attribute map produced by this data
source: either a string, or the list of secondary-range maps (each of which
holds only string values, so no recursion is needed). -/
inductive TfValue where
  | str : String → TfValue
  | ranges : GoSlice (List (String × String)) → TfValue
  deriving Repr, DecidableEq

/-- Function `generateTfSecondaryIpRange`: one secondary range becomes a two-entry
map. -/
def generateTfSecondaryIpRange (secondaryIpRange : UsableSubnetworkSecondaryRange) :
    List (String × String) :=
  [("range_name", secondaryIpRange.RangeName),
   ("ip_cidr_range", secondaryIpRange.IpCidrRange)]

/-- Function `generateTfSecondaryIpRanges`: starts from `make([]map[string]interface\x7b\x7d, 0)`
and appends the translation of each range in order. -/
def generateTfSecondaryIpRanges (secondaryIpRanges : List UsableSubnetworkSecondaryRange) :
    GoSlice (List (String × String)) :=
  secondaryIpRanges.foldl
    (fun allSecondaryIpRanges secIpRange =>
      allSecondaryIpRanges.push (generateTfSecondaryIpRange secIpRange))
    GoSlice.make0

/-- Function `generateTfSubnetwork`: the ten-key attribute map built from one
`compute.UsableSubnetwork`. -/
def generateTfSubnetwork (usableSubnetwork : UsableSubnetwork) : List (String × TfValue) :=
  [("subnetwork", .str usableSubnetwork.Subnetwork),
   ("network", .str usableSubnetwork.Network),
   ("ip_cidr_range", .str usableSubnetwork.IpCidrRange),
   ("secondary_ip_ranges", .ranges (generateTfSecondaryIpRanges usableSubnetwork.SecondaryIpRanges)),
   ("stack_type", .str usableSubnetwork.StackType),
   ("ipv6_access_type", .str usableSubnetwork.Ipv6AccessType),
   ("purpose", .str usableSubnetwork.Purpose),
   ("role", .str usableSubnetwork.Role),
   ("external_ipv6_prefix", .str usableSubnetwork.ExternalIpv6Pfx),
   ("internal_ipv6_prefix", .str usableSubnetwork.InternalIpv6Pfx)]

/-- Inverse reading of one secondary-range map, by key lookup. -/
def fromTfSecondaryIpRange (m : List (String × String)) :
    Option UsableSubnetworkSecondaryRange := do
  let rn ← (m.lookup "range_name")
  let cidr ← (m.lookup "ip_cidr_range")
  pure ⟨rn, cidr⟩

/-- Extracts a string value from the attribute map. -/
def lookupStr (m : List (String × TfValue)) (k : String) : Option String :=
  match m.lookup k with
  | some (.str s) => some s
  | _ => none

/-- Extracts the secondary-range list from the attribute map. -/
def lookupRanges (m : List (String × TfValue)) :
    Option (GoSlice (List (String × String))) :=
  match m.lookup "secondary_ip_ranges" with
  | some (.ranges r) => some r
  | _ => none

/-- Inverse reading of a list of secondary-range maps. -/
def fromTfSecondaryIpRangeList :
    List (List (String × String)) → Option (List UsableSubnetworkSecondaryRange)
  | [] => some []
  | m :: rest => do
    let r ← fromTfSecondaryIpRange m
    let rs ← fromTfSecondaryIpRangeList rest
    pure (r :: rs)

/-- Inverse reading of a subnetwork attribute map, by key lookup. -/
def fromTfSubnetwork (m : List (String × TfValue)) : Option UsableSubnetwork := do
  let sn ← lookupStr m "subnetwork"
  let nw ← lookupStr m "network"
  let cidr ← lookupStr m "ip_cidr_range"
  let secs ← lookupRanges m
  let secRanges ← fromTfSecondaryIpRangeList secs.elems
  let st ← lookupStr m "stack_type"
  let v6 ← lookupStr m "ipv6_access_type"
  let pu ← lookupStr m "purpose"
  let ro ← lookupStr m "role"
  let ext ← lookupStr m "external_ipv6_prefix"
  let int ← lookupStr m "internal_ipv6_prefix"
  pure ⟨sn, nw, cidr, secRanges, st, v6, pu, ro, ext, int⟩

/-- Semantics of `d.GetOk` on a string attribute: reports false (here:
`none`) when the attribute is absent or set to the zero value `""`. -/
def getOk (v : Option String) : Option String :=
  match v with
  | none => none
  | some s => if s = "" then none else some s

/-- The attributes of `schema.ResourceData` this data source touches, plus an
opaque remainder standing for every other attribute. -/
structure ResourceData where
  filter : Option String
  subnetworks : Option (List (List (String × TfValue)))
  project : Option String
  id : Option String
  other : List (String × String)
  deriving Repr, DecidableEq

/-- Function `computeUsableSubnetworksListId`: `fmt.Sprintf("%s-%s", project, filter)`
with `filter` the configured filter when `d.GetOk("filter")` holds and `"ALL"`
otherwise. -/
def computeUsableSubnetworksListId (project : String) (d : ResourceData) : String :=
  let filter := match getOk d.filter with
    | some subfilter => subfilter
    | none => "ALL"
  project ++ "-" ++ filter

/-- The external effects of one read invocation: the results of
`generateUserAgentString`, `getProject`, the `Subnetworks.ListUsable` call
(a function of the filter actually placed on the request; `.ok` is the
sequence of response pages, each a page of items), and the outcomes of the
two `d.Set` calls (`none` = success). -/
structure ReadEnv where
  userAgentResult : Except String String
  projectResult : Except String String
  api : Option String → Except String (List (List UsableSubnetwork))
  setSubnetworksOutcome : Option String
  setProjectOutcome : Option String

/-- Lines 141-144: the filter placed on the `ListUsable` request — the
configured filter exactly when `d.GetOk("filter")` holds, otherwise no
filter parameter. -/
def listUsableRequestFilter (d : ResourceData) : Option String :=
  getOk d.filter

/-- Function `dataSourceGoogleComputeUsableSubnetworksRead`: returns the diagnostics
(`some` an error message, or `none` for success) together with the resource
data after the invocation.  The accumulation over pages mirrors the Go
`req.Pages` callback: for each page in order, each item is appended to
`allUsableSubnetworks` after reshaping by `generateTfSubnetwork`. -/
def dataSourceGoogleComputeUsableSubnetworksRead (env : ReadEnv) (d : ResourceData) :
    Option String × ResourceData :=
  match env.userAgentResult with
  | .error e => (some e, d)
  | .ok _userAgent =>
    match env.projectResult with
    | .error e => (some e, d)
    | .ok project =>
      match env.api (listUsableRequestFilter d) with
      | .error e => (some e, d)
      | .ok pages =>
        let allUsableSubnetworks : List (List (String × TfValue)) :=
          pages.foldl
            (fun acc page =>
              page.foldl (fun acc2 item => acc2 ++ [generateTfSubnetwork item]) acc)
            []
        match env.setSubnetworksOutcome with
        | some e => (some ("error setting subnetworks: " ++ e), d)
        | none =>
          let d1 := { d with subnetworks := some allUsableSubnetworks }
          match env.setProjectOutcome with
          | some e => (some ("error setting project: " ++ e), d1)
          | none =>
            let d2 := { d1 with project := some project }
            let d3 := { d2 with id := some (computeUsableSubnetworksListId project d2) }
            (none, d3)

/-- A piece of the ERB example template: literal text, a `ctx[:vars]`
substitution, or a `ctx[:test_env_vars]` substitution. -/
inductive TemplatePiece where
  | lit : String → TemplatePiece
  | var : String → TemplatePiece
  | testEnvVar : String → TemplatePiece
  deriving Repr, DecidableEq

/-- Renders one template piece under a context assignment. -/
def renderPiece (vars testEnvVars : String → String) : TemplatePiece → String
  | .lit s => s
  | .var k => vars k
  | .testEnvVar k => testEnvVars k

/-- Renders a template: concatenation of its rendered pieces. -/
def renderTemplate (vars testEnvVars : String → String) (t : List TemplatePiece) : String :=
  String.join (t.map (renderPiece vars testEnvVars))

/-- The literal text of `gkebackup_backupplan_full.tf.erb` before the
`cluster_name` substitution. -/
def tplLit0 : String :=
  "resource \"google_container_cluster\" \"primary\" \x7b\n  provider = google-beta\n  name               = \""

/-- The literal text between the `cluster_name` and `project` substitutions. -/
def tplLit1 : String :=
  "\"\n  location           = \"us-central1\"\n  initial_node_count = 1\n  workload_identity_config \x7b\n    workload_pool = \""

/-- The literal text between the `project` and `name` substitutions. -/
def tplLit2 : String :=
  ".svc.id.goog\"\n  \x7d\n  addons_config \x7b\n    gke_backup_agent_config \x7b\n      enabled = true\n    \x7d\n  \x7d\n\x7d\n\nresource \"google_gke_backup_backup_plan\" \"full\" \x7b\n  provider = google-beta\n  name = \""

/-- The literal text after the `name` substitution. -/
def tplLit3 : String :=
  "\"\n  cluster = google_container_cluster.primary.id\n  location = \"us-central1\"\n  retention_policy \x7b\n    backup_delete_lock_days = 30\n    backup_retain_days = 180\n  \x7d\n  backup_schedule \x7b\n    cron_schedule = \"0 9 * * 1\"\n  \x7d\n  backup_config \x7b\n    include_volume_data = true\n    include_secrets = true\n    selected_applications \x7b\n      namespaced_names \x7b\n        name = \"app1\"\n        namespace = \"ns1\"\n      \x7d\n      namespaced_names \x7b\n        name = \"app2\"\n        namespace = \"ns2\"\n      \x7d\n    \x7d\n  \x7d\n\x7d"

/-- The template `gkebackup_backupplan_full.tf.erb` as a sequence of pieces:
literal text interleaved with its three ERB substitutions
(`ctx[:vars]['cluster_name']`, `ctx[:test_env_vars]['project']`,
`ctx[:vars]['name']`). -/
def gkebackupBackupplanFullTemplate : List TemplatePiece :=
  [.lit tplLit0, .var "cluster_name", .lit tplLit1, .testEnvVar "project",
   .lit tplLit2, .var "name", .lit tplLit3]

/-- True on the substitution pieces of a template, false on literal text. -/
def TemplatePiece.isSubstitution : TemplatePiece → Bool
  | .lit _ => false
  | .var _ => true
  | .testEnvVar _ => true

/-- Sample secondary range used in concrete instantiations. -/
def sampleSecRange : UsableSubnetworkSecondaryRange :=
  ⟨"r1", "10.1.0.0/24"⟩

/-- Sample subnetwork used in concrete instantiations. -/
def sampleSubnetwork : UsableSubnetwork :=
  ⟨"sn1", "nw1", "10.0.0.0/16", [sampleSecRange], "IPV4_ONLY", "", "PRIVATE", "",
   "", ""⟩

/-- A second sample subnetwork, with no secondary ranges. -/
def sampleSubnetwork2 : UsableSubnetwork :=
  ⟨"sn2", "nw2", "10.2.0.0/16", [], "IPV4_IPV6", "EXTERNAL", "PRIVATE", "ACTIVE",
   "2600:1900::/64", "fd20::/64"⟩

/-- A resource data with no filter configured and nothing written yet. -/
def rdEmpty : ResourceData := ⟨none, none, none, none, []⟩

/-- A resource data with the filter attribute configured. -/
def rdWithFilter (f : String) : ResourceData := ⟨some f, none, none, none, []⟩

/-- An environment in which every external call succeeds, returning two pages. -/
def envOk : ReadEnv :=
  ⟨.ok "ua", .ok "proj", fun _f => .ok [[sampleSubnetwork], [sampleSubnetwork2]],
   none, none⟩

theorem goSlice_foldl_push_elems {α β : Type} (f : α → β) (l : List α) (acc : GoSlice β) :
    (l.foldl (fun s x => s.push (f x)) acc).elems = acc.elems ++ l.map f := by
  induction l generalizing acc with
  | nil => simp
  | cons x xs ih =>
    rw [List.foldl_cons, ih]
    simp [GoSlice.push]

theorem goSlice_foldl_push_null {α β : Type} (f : α → β) (l : List α) (acc : GoSlice β)
    (h : acc.null = false) :
    (l.foldl (fun s x => s.push (f x)) acc).null = false := by
  induction l generalizing acc with
  | nil => exact h
  | cons x xs ih => exact ih (acc.push (f x)) rfl

theorem generateTfSecondaryIpRanges_elems (l : List UsableSubnetworkSecondaryRange) :
    (generateTfSecondaryIpRanges l).elems = l.map generateTfSecondaryIpRange := by
  simp [generateTfSecondaryIpRanges, goSlice_foldl_push_elems, GoSlice.make0]

theorem generateTfSecondaryIpRanges_null (l : List UsableSubnetworkSecondaryRange) :
    (generateTfSecondaryIpRanges l).null = false :=
  goSlice_foldl_push_null _ l GoSlice.make0 rfl

theorem fromTf_generateTf_secondaryIpRange (r : UsableSubnetworkSecondaryRange) :
    fromTfSecondaryIpRange (generateTfSecondaryIpRange r) = some r := rfl

theorem fromTfList_generateTf (l : List UsableSubnetworkSecondaryRange) :
    fromTfSecondaryIpRangeList (l.map generateTfSecondaryIpRange) = some l := by
  induction l with
  | nil => rfl
  | cons r rs ih =>
    simp [fromTfSecondaryIpRangeList, fromTf_generateTf_secondaryIpRange, ih]

theorem foldl_append_map {α β : Type} (g : α → β) (l : List α) (acc : List β) :
    l.foldl (fun a i => a ++ [g i]) acc = acc ++ l.map g := by
  induction l generalizing acc with
  | nil => simp
  | cons x xs ih => simp [ih]

theorem foldl_pages_join {α β : Type} (g : α → β) (pages : List (List α))
    (acc : List β) :
    pages.foldl (fun acc1 page => page.foldl (fun a i => a ++ [g i]) acc1) acc
      = acc ++ (pages.flatten).map g := by
  induction pages generalizing acc with
  | nil => simp
  | cons p ps ih =>
    rw [List.foldl_cons, foldl_append_map, ih]
    simp

theorem computeUsableSubnetworksListId_filter_congr (p : String) (d1 d2 : ResourceData)
    (h : d1.filter = d2.filter) :
    computeUsableSubnetworksListId p d1 = computeUsableSubnetworksListId p d2 := by
  simp [computeUsableSubnetworksListId, h]

theorem read_success_eq (env : ReadEnv) (d : ResourceData) (ua p : String)
    (pages : List (List UsableSubnetwork))
    (hua : env.userAgentResult = .ok ua) (hp : env.projectResult = .ok p)
    (hapi : env.api (listUsableRequestFilter d) = .ok pages)
    (hs1 : env.setSubnetworksOutcome = none) (hs2 : env.setProjectOutcome = none) :
    dataSourceGoogleComputeUsableSubnetworksRead env d =
      (none,
       { d with subnetworks := some ((pages.flatten).map generateTfSubnetwork),
                project := some p,
                id := some (computeUsableSubnetworksListId p d) }) := by
  simp only [dataSourceGoogleComputeUsableSubnetworksRead, hua, hp, hapi, hs1, hs2,
    foldl_pages_join, List.nil_append]
  simp [computeUsableSubnetworksListId]

/-- C1: for every project string `p`, the synthetic resource ID computed by
`computeUsableSubnetworksListId` is `p ++ "-" ++ f` with `f` the configured
filter when a filter is set (per the optional lookup) and `"ALL"` otherwise;
in particular project `"p"` with no filter gives `"p-ALL"` and with filter
`"name=foo"` gives `"p-name=foo"`. -/
theorem claim_C1_computeUsableSubnetworksListId :
    (∀ (p f : String) (d : ResourceData), d.filter = some f → f ≠ "" →
        computeUsableSubnetworksListId p d = p ++ "-" ++ f) ∧
    (∀ (p : String) (d : ResourceData), d.filter = none →
        computeUsableSubnetworksListId p d = p ++ "-" ++ "ALL") ∧
    computeUsableSubnetworksListId "p" rdEmpty = "p-ALL" ∧
    computeUsableSubnetworksListId "p" (rdWithFilter "name=foo") = "p-name=foo" := by
  refine ⟨?_, ?_, rfl, rfl⟩
  · intro p f d hd hne
    simp [computeUsableSubnetworksListId, getOk, hd, hne]
  · intro p d hd
    simp [computeUsableSubnetworksListId, getOk, hd]

/-- Witness for C1 at the concrete input of the claim. -/
theorem claim_C1_computeUsableSubnetworksListId_witness :
    computeUsableSubnetworksListId "p" (rdWithFilter "name=foo")
      = "p" ++ "-" ++ "name=foo" :=
  claim_C1_computeUsableSubnetworksListId.1 "p" "name=foo" (rdWithFilter "name=foo")
    rfl (by decide)

/-- C2: `generateTfSubnetwork` is a pure, lossless field-for-field mapping:
each of the ten struct fields appears unmodified under its schema key, every
secondary range maps its `RangeName` and `IpCidrRange` likewise, and the
original struct is recovered from the resulting map. -/
theorem claim_C2_generateTfSubnetwork_lossless :
    ∀ u : UsableSubnetwork,
      lookupStr (generateTfSubnetwork u) "subnetwork" = some u.Subnetwork ∧
      lookupStr (generateTfSubnetwork u) "network" = some u.Network ∧
      lookupStr (generateTfSubnetwork u) "ip_cidr_range" = some u.IpCidrRange ∧
      lookupRanges (generateTfSubnetwork u)
        = some (generateTfSecondaryIpRanges u.SecondaryIpRanges) ∧
      (generateTfSecondaryIpRanges u.SecondaryIpRanges).elems
        = u.SecondaryIpRanges.map generateTfSecondaryIpRange ∧
      (∀ r : UsableSubnetworkSecondaryRange,
          (generateTfSecondaryIpRange r).lookup "range_name" = some r.RangeName ∧
          (generateTfSecondaryIpRange r).lookup "ip_cidr_range" = some r.IpCidrRange) ∧
      lookupStr (generateTfSubnetwork u) "stack_type" = some u.StackType ∧
      lookupStr (generateTfSubnetwork u) "ipv6_access_type" = some u.Ipv6AccessType ∧
      lookupStr (generateTfSubnetwork u) "purpose" = some u.Purpose ∧
      lookupStr (generateTfSubnetwork u) "role" = some u.Role ∧
      lookupStr (generateTfSubnetwork u) "external_ipv6_prefix" = some u.ExternalIpv6Pfx ∧
      lookupStr (generateTfSubnetwork u) "internal_ipv6_prefix" = some u.InternalIpv6Pfx ∧
      fromTfSubnetwork (generateTfSubnetwork u) = some u := by
  intro u
  obtain ⟨s1, s2, s3, l, s4, s5, s6, s7, s8, s9⟩ := u
  refine ⟨rfl, rfl, rfl, rfl, generateTfSecondaryIpRanges_elems l,
    fun r => ⟨rfl, rfl⟩, rfl, rfl, rfl, rfl, rfl, rfl, ?_⟩
  simp [fromTfSubnetwork, generateTfSubnetwork, lookupStr, lookupRanges,
    List.lookup, generateTfSecondaryIpRanges_elems, fromTfList_generateTf]

/-- C9: `generateTfSecondaryIpRanges` always returns a non-nil slice; on an
empty input it returns the allocated empty slice, so a subnetwork with no
secondary ranges yields an empty `secondary_ip_ranges` list in the map. -/
theorem claim_C9_generateTfSecondaryIpRanges_nonNil :
    (∀ l, (generateTfSecondaryIpRanges l).null = false) ∧
    generateTfSecondaryIpRanges [] = GoSlice.make0 ∧
    (∀ u : UsableSubnetwork, u.SecondaryIpRanges = [] →
        lookupRanges (generateTfSubnetwork u) = some GoSlice.make0) := by
  refine ⟨generateTfSecondaryIpRanges_null, rfl, ?_⟩
  intro u h
  simp [lookupRanges, generateTfSubnetwork, h, generateTfSecondaryIpRanges,
    List.lookup]

/-- Witness for C9 at concrete inputs. -/
theorem claim_C9_generateTfSecondaryIpRanges_nonNil_witness :
    (generateTfSecondaryIpRanges [sampleSecRange]).null = false ∧
    lookupRanges (generateTfSubnetwork sampleSubnetwork2) = some GoSlice.make0 :=
  ⟨claim_C9_generateTfSecondaryIpRanges_nonNil.1 [sampleSecRange],
   claim_C9_generateTfSecondaryIpRanges_nonNil.2.2 sampleSubnetwork2 rfl⟩

/-- C3 counterexample: a state-set failure is not propagated verbatim — the
read wraps it with the prefix "error setting subnetworks: ", so the
diagnostic for the underlying error `"boom"` is not `"boom"`. -/
theorem claim_C3_set_error_not_verbatim :
    (dataSourceGoogleComputeUsableSubnetworksRead
        ⟨.ok "ua", .ok "proj", fun _f => .ok [], some "boom", none⟩ rdEmpty).1
      = some "error setting subnetworks: boom" ∧
    "error setting subnetworks: boom" ≠ "boom" :=
  ⟨rfl, by decide⟩

/-- C3 (amended): every failure aborts the read immediately, with no retry,
recovery, or compensation; user-agent generation, project resolution, and
API/pagination errors are propagated verbatim, while the two state-set
failures are propagated wrapped with a descriptive
"error setting subnetworks/project: " prefix. -/
theorem claim_C3_error_propagation (env : ReadEnv) (d : ResourceData) :
    (∀ e, env.userAgentResult = .error e →
        dataSourceGoogleComputeUsableSubnetworksRead env d = (some e, d)) ∧
    (∀ ua e, env.userAgentResult = .ok ua → env.projectResult = .error e →
        dataSourceGoogleComputeUsableSubnetworksRead env d = (some e, d)) ∧
    (∀ ua p e, env.userAgentResult = .ok ua → env.projectResult = .ok p →
        env.api (listUsableRequestFilter d) = .error e →
        dataSourceGoogleComputeUsableSubnetworksRead env d = (some e, d)) ∧
    (∀ ua p pages e, env.userAgentResult = .ok ua → env.projectResult = .ok p →
        env.api (listUsableRequestFilter d) = .ok pages →
        env.setSubnetworksOutcome = some e →
        (dataSourceGoogleComputeUsableSubnetworksRead env d).1
          = some ("error setting subnetworks: " ++ e)) ∧
    (∀ ua p pages e, env.userAgentResult = .ok ua → env.projectResult = .ok p →
        env.api (listUsableRequestFilter d) = .ok pages →
        env.setSubnetworksOutcome = none → env.setProjectOutcome = some e →
        (dataSourceGoogleComputeUsableSubnetworksRead env d).1
          = some ("error setting project: " ++ e)) := by
  refine ⟨?_, ?_, ?_, ?_, ?_⟩
  · intro e h1
    simp [dataSourceGoogleComputeUsableSubnetworksRead, h1]
  · intro ua e h1 h2
    simp [dataSourceGoogleComputeUsableSubnetworksRead, h1, h2]
  · intro ua p e h1 h2 h3
    simp [dataSourceGoogleComputeUsableSubnetworksRead, h1, h2, h3]
  · intro ua p pages e h1 h2 h3 h4
    simp [dataSourceGoogleComputeUsableSubnetworksRead, h1, h2, h3, h4]
  · intro ua p pages e h1 h2 h3 h4 h5
    simp [dataSourceGoogleComputeUsableSubnetworksRead, h1, h2, h3, h4, h5]

/-- Witness for the amended C3: an API failure is returned verbatim. -/
theorem claim_C3_error_propagation_witness :
    dataSourceGoogleComputeUsableSubnetworksRead
        ⟨.ok "ua", .ok "proj", fun _f => .error "api down", none, none⟩ rdEmpty
      = (some "api down", rdEmpty) :=
  (claim_C3_error_propagation
      ⟨.ok "ua", .ok "proj", fun _f => .error "api down", none, none⟩ rdEmpty).2.2.1
    "ua" "proj" "api down" rfl rfl rfl

/-- C4: if the list API call or any pagination step fails, the read returns
that error and the resource data is untouched — the subnetworks, project and
ID attributes stay exactly as they were (unset remains unset). -/
theorem claim_C4_api_error_writes_nothing (env : ReadEnv) (d : ResourceData)
    (ua p e : String)
    (hua : env.userAgentResult = .ok ua) (hp : env.projectResult = .ok p)
    (hapi : env.api (listUsableRequestFilter d) = .error e) :
    dataSourceGoogleComputeUsableSubnetworksRead env d = (some e, d) ∧
    (dataSourceGoogleComputeUsableSubnetworksRead env d).2.subnetworks
      = d.subnetworks ∧
    (dataSourceGoogleComputeUsableSubnetworksRead env d).2.project = d.project ∧
    (dataSourceGoogleComputeUsableSubnetworksRead env d).2.id = d.id := by
  have h : dataSourceGoogleComputeUsableSubnetworksRead env d = (some e, d) := by
    simp [dataSourceGoogleComputeUsableSubnetworksRead, hua, hp, hapi]
  exact ⟨h, by rw [h], by rw [h], by rw [h]⟩

/-- Witness for C4: with an unset `ResourceData`, an API failure leaves all
three result attributes unset. -/
theorem claim_C4_api_error_writes_nothing_witness :
    dataSourceGoogleComputeUsableSubnetworksRead
        ⟨.ok "ua", .ok "proj", fun _f => .error "e1", none, none⟩ rdEmpty
      = (some "e1", rdEmpty) :=
  (claim_C4_api_error_writes_nothing
      ⟨.ok "ua", .ok "proj", fun _f => .error "e1", none, none⟩ rdEmpty
      "ua" "proj" "e1" rfl rfl rfl).1

/-- C5: on a successful read the subnetworks attribute holds exactly the
items of all pages, each reshaped by `generateTfSubnetwork`, in page order
and then item order — no item dropped, duplicated, or reordered. -/
theorem claim_C5_pages_in_order (env : ReadEnv) (d : ResourceData) (ua p : String)
    (pages : List (List UsableSubnetwork))
    (hua : env.userAgentResult = .ok ua) (hp : env.projectResult = .ok p)
    (hapi : env.api (listUsableRequestFilter d) = .ok pages)
    (hs1 : env.setSubnetworksOutcome = none) (hs2 : env.setProjectOutcome = none) :
    (dataSourceGoogleComputeUsableSubnetworksRead env d).2.subnetworks
      = some ((pages.flatten).map generateTfSubnetwork) := by
  rw [read_success_eq env d ua p pages hua hp hapi hs1 hs2]

/-- Witness for C5: two pages of one item each come out flattened in order. -/
theorem claim_C5_pages_in_order_witness :
    (dataSourceGoogleComputeUsableSubnetworksRead envOk rdEmpty).2.subnetworks
      = some [generateTfSubnetwork sampleSubnetwork,
              generateTfSubnetwork sampleSubnetwork2] :=
  claim_C5_pages_in_order envOk rdEmpty "ua" "proj"
    [[sampleSubnetwork], [sampleSubnetwork2]] rfl rfl rfl rfl rfl

/-- C6: a successful read writes only the subnetworks attribute, the project
attribute and the resource ID; the filter attribute and all other state are
unchanged, and the invocation is a pure function of its inputs. -/
theorem claim_C6_success_frame (env : ReadEnv) (d : ResourceData) (ua p : String)
    (pages : List (List UsableSubnetwork))
    (hua : env.userAgentResult = .ok ua) (hp : env.projectResult = .ok p)
    (hapi : env.api (listUsableRequestFilter d) = .ok pages)
    (hs1 : env.setSubnetworksOutcome = none) (hs2 : env.setProjectOutcome = none) :
    dataSourceGoogleComputeUsableSubnetworksRead env d =
      (none,
       { d with subnetworks := some ((pages.flatten).map generateTfSubnetwork),
                project := some p,
                id := some (computeUsableSubnetworksListId p d) }) ∧
    (dataSourceGoogleComputeUsableSubnetworksRead env d).2.filter = d.filter ∧
    (dataSourceGoogleComputeUsableSubnetworksRead env d).2.other = d.other := by
  have h := read_success_eq env d ua p pages hua hp hapi hs1 hs2
  exact ⟨h, by rw [h], by rw [h]⟩

/-- Witness for C6: a concrete successful read keeps the filter and the
other attributes untouched. -/
theorem claim_C6_success_frame_witness :
    dataSourceGoogleComputeUsableSubnetworksRead envOk (rdWithFilter "name=foo") =
      (none,
       { rdWithFilter "name=foo" with
           subnetworks := some [generateTfSubnetwork sampleSubnetwork,
                                generateTfSubnetwork sampleSubnetwork2],
           project := some "proj",
           id := some (computeUsableSubnetworksListId "proj"
                        (rdWithFilter "name=foo")) }) :=
  (claim_C6_success_frame envOk (rdWithFilter "name=foo") "ua" "proj"
    [[sampleSubnetwork], [sampleSubnetwork2]] rfl rfl rfl rfl rfl).1

/-- C7: the filter parameter is optional — a configured (non-zero) filter is
placed verbatim on the `ListUsable` request, an unconfigured filter places no
filter parameter, and the read consults the API only at that request
filter. -/
theorem claim_C7_filter_optional :
    (∀ (d : ResourceData) (f : String), d.filter = some f → f ≠ "" →
        listUsableRequestFilter d = some f) ∧
    (∀ d : ResourceData, d.filter = none → listUsableRequestFilter d = none) ∧
    (∀ (env : ReadEnv)
        (api2 : Option String → Except String (List (List UsableSubnetwork)))
        (d : ResourceData),
        api2 (listUsableRequestFilter d) = env.api (listUsableRequestFilter d) →
        dataSourceGoogleComputeUsableSubnetworksRead
            ⟨env.userAgentResult, env.projectResult, api2,
             env.setSubnetworksOutcome, env.setProjectOutcome⟩ d
          = dataSourceGoogleComputeUsableSubnetworksRead env d) := by
  refine ⟨?_, ?_, ?_⟩
  · intro d f hd hne
    simp [listUsableRequestFilter, getOk, hd, hne]
  · intro d hd
    simp [listUsableRequestFilter, getOk, hd]
  · intro env api2 d h
    simp only [dataSourceGoogleComputeUsableSubnetworksRead, h]

/-- Witness for C7 at concrete resource data. -/
theorem claim_C7_filter_optional_witness :
    listUsableRequestFilter (rdWithFilter "name=foo") = some "name=foo" :=
  claim_C7_filter_optional.1 (rdWithFilter "name=foo") "name=foo" rfl (by decide)

/-- C10: the filter component of the synthetic ID always agrees with the
filter sent on the request — both come from the same optional lookup: a set
non-empty filter appears in both, while an unset filter, and equally a
filter set to the empty string, yields no request filter and the literal
`"ALL"` in the ID. -/
theorem claim_C10_request_id_filter_agree (d : ResourceData) (project : String) :
    (∀ f : String, d.filter = some f → f ≠ "" →
        listUsableRequestFilter d = some f ∧
        computeUsableSubnetworksListId project d = project ++ "-" ++ f) ∧
    (d.filter = none →
        listUsableRequestFilter d = none ∧
        computeUsableSubnetworksListId project d = project ++ "-" ++ "ALL") ∧
    (d.filter = some "" →
        listUsableRequestFilter d = none ∧
        computeUsableSubnetworksListId project d = project ++ "-" ++ "ALL") := by
  refine ⟨?_, ?_, ?_⟩
  · intro f hd hne
    constructor
    · simp [listUsableRequestFilter, getOk, hd, hne]
    · simp [computeUsableSubnetworksListId, getOk, hd, hne]
  · intro hd
    constructor
    · simp [listUsableRequestFilter, getOk, hd]
    · simp [computeUsableSubnetworksListId, getOk, hd]
  · intro hd
    constructor
    · simp [listUsableRequestFilter, getOk, hd]
    · simp [computeUsableSubnetworksListId, getOk, hd]

/-- Witness for C10: a filter configured as the empty string is treated as
absent in both the request and the ID. -/
theorem claim_C10_request_id_filter_agree_witness :
    listUsableRequestFilter (rdWithFilter "") = none ∧
    computeUsableSubnetworksListId "p" (rdWithFilter "") = "p" ++ "-" ++ "ALL" :=
  (claim_C10_request_id_filter_agree (rdWithFilter "") "p").2.2 rfl

/-- C8: rendering the example template substitutes exactly three tokens —
`cluster_name` into the cluster name, `project` into the workload pool, and
`name` into the backup-plan name — and leaves all other text unchanged; in
particular with `cluster_name="c1"`, `name="bp1"`, `project="proj"` only
those three values appear at those positions. -/
theorem claim_C8_template_substitution :
    (∀ vars testEnvVars : String → String,
        renderTemplate vars testEnvVars gkebackupBackupplanFullTemplate
          = tplLit0 ++ vars "cluster_name" ++ tplLit1 ++ testEnvVars "project"
            ++ tplLit2 ++ vars "name" ++ tplLit3) ∧
    gkebackupBackupplanFullTemplate.filter (fun piece => piece.isSubstitution)
      = [.var "cluster_name", .testEnvVar "project", .var "name"] ∧
    renderTemplate
        (fun k => if k = "cluster_name" then "c1" else if k = "name" then "bp1" else "")
        (fun k => if k = "project" then "proj" else "")
        gkebackupBackupplanFullTemplate
      = tplLit0 ++ "c1" ++ tplLit1 ++ "proj" ++ tplLit2 ++ "bp1" ++ tplLit3 := by
  refine ⟨?_, rfl, ?_⟩
  · intro vars testEnvVars
    simp [renderTemplate, gkebackupBackupplanFullTemplate, renderPiece,
      String.join, String.append_assoc, String.empty_append]
  · simp [renderTemplate, gkebackupBackupplanFullTemplate, renderPiece,
      String.join, String.append_assoc, String.empty_append]
